import Mathlib

/-!
Shallow embedding of `src/impact_calculator.py` (Republic-of-Zachistan).

The program's only computational component is the pure function
`calculate_metrics(adoption_rate)`.  Python numbers are modelled as
rationals (`ℚ`); Python's built-in `round` to an integer (round half to
even, the banker's rounding used by `round(float)`) is modelled by
`pyRound`.
-/

namespace Zachistan

/-- Python's built-in `round` to an integer: round half to even. -/
def pyRound (x : ℚ) : ℤ :=
  let n := Rat.floor x
  if x - n < 1/2 then n
  else if 1/2 < x - n then n + 1
  else if n % 2 = 0 then n else n + 1

theorem ratFloor_eq_intFloor (x : ℚ) : (Rat.floor x : ℤ) = ⌊x⌋ := by
  rw [Rat.floor_def, Rat.floor_def']

theorem pyRound_def' (x : ℚ) :
    pyRound x =
      if x - ⌊x⌋ < 1/2 then ⌊x⌋
      else if 1/2 < x - ⌊x⌋ then ⌊x⌋ + 1
      else if ⌊x⌋ % 2 = 0 then ⌊x⌋ else ⌊x⌋ + 1 := by
  rw [pyRound, ratFloor_eq_intFloor]

theorem pyRound_floor_case {x : ℚ} {n : ℤ} (h0 : (n : ℚ) ≤ x) (h1 : x - n < 1/2) :
    pyRound x = n := by
  have hf : ⌊x⌋ = n := Int.floor_eq_iff.mpr ⟨h0, by linarith⟩
  rw [pyRound_def', hf, if_pos h1]

theorem pyRound_up_case {x : ℚ} {n : ℤ} (h1 : 1/2 < x - n) (h2 : x < (n : ℚ) + 1) :
    pyRound x = n + 1 := by
  have hf : ⌊x⌋ = n := Int.floor_eq_iff.mpr ⟨by linarith, by linarith⟩
  rw [pyRound_def', hf, if_neg (by linarith), if_pos h1]

theorem pyRound_tie_even {x : ℚ} {n : ℤ} (h : x - n = 1/2) (he : n % 2 = 0) :
    pyRound x = n := by
  have hf : ⌊x⌋ = n := Int.floor_eq_iff.mpr ⟨by linarith, by linarith⟩
  rw [pyRound_def', hf, if_neg (by rw [h]; norm_num), if_neg (by rw [h]; norm_num), if_pos he]

theorem pyRound_tie_odd {x : ℚ} {n : ℤ} (h : x - n = 1/2) (ho : n % 2 = 1) :
    pyRound x = n + 1 := by
  have hf : ⌊x⌋ = n := Int.floor_eq_iff.mpr ⟨by linarith, by linarith⟩
  rw [pyRound_def', hf, if_neg (by rw [h]; norm_num), if_neg (by rw [h]; norm_num),
    if_neg (by omega)]

theorem le_pyRound (x : ℚ) : x - 1/2 ≤ (pyRound x : ℚ) := by
  rw [pyRound_def']
  have h1 := Int.floor_le x
  have h2 := Int.lt_floor_add_one x
  split_ifs <;> push_cast <;> linarith

theorem pyRound_le (x : ℚ) : (pyRound x : ℚ) ≤ x + 1/2 := by
  rw [pyRound_def']
  have h1 := Int.floor_le x
  have h2 := Int.lt_floor_add_one x
  split_ifs <;> push_cast <;> linarith

theorem pyRound_mono {x y : ℚ} (hxy : x ≤ y) : pyRound x ≤ pyRound y := by
  by_contra hlt
  push_neg at hlt
  have h1 : ((pyRound y : ℚ) + 1) ≤ (pyRound x : ℚ) := by
    exact_mod_cast Int.add_one_le_iff.mpr hlt
  have h2 := pyRound_le x
  have h3 := le_pyRound y
  have hxy' : x = y := by linarith
  subst hxy'
  exact absurd hlt (lt_irrefl _)

theorem pyRound_add_err (a b : ℚ) : |pyRound a + pyRound b - pyRound (a + b)| ≤ 1 := by
  have h1 := pyRound_le a
  have h2 := le_pyRound a
  have h3 := pyRound_le b
  have h4 := le_pyRound b
  have h5 := pyRound_le (a + b)
  have h6 := le_pyRound (a + b)
  have key : ((|pyRound a + pyRound b - pyRound (a + b)| : ℤ) : ℚ) ≤ 3/2 := by
    rw [Int.cast_abs, abs_le]
    constructor <;> push_cast <;> linarith
  have h7 : ((|pyRound a + pyRound b - pyRound (a + b)| : ℤ) : ℚ) < 2 :=
    key.trans_lt (by norm_num)
  have h8 : |pyRound a + pyRound b - pyRound (a + b)| < 2 := by exact_mod_cast h7
  omega

/-- The `lives_saved` dictionary returned by `calculate_metrics`. -/
structure LivesSaved where
  children : ℤ
  adults : ℤ
  total : ℤ

/-- One treatment's entry in the `costs` dictionary. -/
structure TreatmentCosts where
  total : ℚ
  children : ℚ
  adults : ℚ

/-- The `costs` dictionary returned by `calculate_metrics`. -/
structure Costs where
  huffstatin : TreatmentCosts
  clairadol : TreatmentCosts

/-- The six-tuple returned by `calculate_metrics`. -/
structure Metrics where
  lives_saved : LivesSaved
  costs : Costs
  total_cost : ℚ
  cost_per_life_saved : ℚ
  cost_difference : ℤ
  baseline_cost_per_life : ℚ

/-- Embedding of `calculate_metrics` from `src/impact_calculator.py`,
lines 6-55, following the source line by line. -/
def calculate_metrics (adoption_rate : ℚ) : Metrics :=
  -- Constants from the data
  let TOTAL_POTENTIAL_LIVES : ℤ := 14227
  let CHILDREN_POTENTIAL_LIVES : ℤ := 9647
  let ADULT_POTENTIAL_LIVES : ℤ := 4580
  -- Cost constants (in USD)
  let HUFFSTATIN_TOTAL_COST : ℤ := 3329170
  let CLAIRADOL_TOTAL_COST : ℤ := 3348239
  let COST_DIFFERENCE : ℤ := CLAIRADOL_TOTAL_COST - HUFFSTATIN_TOTAL_COST
  -- Age group costs with Huffstatin
  let HUFFSTATIN_CHILDREN_COST : ℤ := 2407888
  let HUFFSTATIN_ADULT_COST : ℤ := 921283
  -- Age group costs with Clairadol
  let CLAIRADOL_CHILDREN_COST : ℤ := 2182241
  let CLAIRADOL_ADULT_COST : ℤ := 1165998
  -- Calculate based on adoption rate
  let actual_rate : ℚ := adoption_rate / 100
  -- Lives saved calculations
  let lives_saved : LivesSaved :=
    { children := pyRound (CHILDREN_POTENTIAL_LIVES * actual_rate)
      adults := pyRound (ADULT_POTENTIAL_LIVES * actual_rate)
      total := pyRound (TOTAL_POTENTIAL_LIVES * actual_rate) }
  -- Cost calculations
  let costs : Costs :=
    { huffstatin :=
        { total := HUFFSTATIN_TOTAL_COST * (1 - actual_rate)
          children := HUFFSTATIN_CHILDREN_COST * (1 - actual_rate)
          adults := HUFFSTATIN_ADULT_COST * (1 - actual_rate) }
      clairadol :=
        { total := CLAIRADOL_TOTAL_COST * actual_rate
          children := CLAIRADOL_CHILDREN_COST * actual_rate
          adults := CLAIRADOL_ADULT_COST * actual_rate } }
  let total_cost : ℚ := costs.huffstatin.total + costs.clairadol.total
  -- Calculate cost per life saved with proper precision
  let cost_per_life_saved : ℚ :=
    if lives_saved.total > 0 then (COST_DIFFERENCE * actual_rate) / lives_saved.total else 0
  let baseline_cost_per_life : ℚ := COST_DIFFERENCE / TOTAL_POTENTIAL_LIVES
  { lives_saved := lives_saved
    costs := costs
    total_cost := total_cost
    cost_per_life_saved := cost_per_life_saved
    cost_difference := COST_DIFFERENCE
    baseline_cost_per_life := baseline_cost_per_life }

/-- C1: for adoption_rate = 0, `calculate_metrics` returns
lives_saved = {children: 0, adults: 0, total: 0}, cost_per_life_saved = 0,
and total_cost = 3329170.00. -/
theorem c1_rate_zero :
    (calculate_metrics 0).lives_saved.children = 0 ∧
    (calculate_metrics 0).lives_saved.adults = 0 ∧
    (calculate_metrics 0).lives_saved.total = 0 ∧
    (calculate_metrics 0).cost_per_life_saved = 0 ∧
    (calculate_metrics 0).total_cost = 3329170 := by
  have h1 : pyRound ((9647 : ℤ) * ((0 : ℚ) / 100)) = 0 :=
    pyRound_floor_case (by norm_num) (by norm_num)
  have h2 : pyRound ((4580 : ℤ) * ((0 : ℚ) / 100)) = 0 :=
    pyRound_floor_case (by norm_num) (by norm_num)
  have h3 : pyRound ((14227 : ℤ) * ((0 : ℚ) / 100)) = 0 :=
    pyRound_floor_case (by norm_num) (by norm_num)
  simp only [calculate_metrics, h1, h2, h3]
  norm_num

theorem lives_total_50 : (calculate_metrics 50).lives_saved.total = 7114 := by
  have h : pyRound ((14227 : ℤ) * ((50 : ℚ) / 100)) = 7113 + 1 :=
    pyRound_tie_odd (by norm_num) (by norm_num)
  simp only [calculate_metrics, h]
  norm_num

/-- C2: for adoption_rate = 100, `calculate_metrics` returns
lives_saved = {children: 9647, adults: 4580, total: 14227},
total_cost = 3348239.00, and cost_per_life_saved = 19069/14227,
which rounds to 1.34 at two decimal places. -/
theorem c2_rate_100 :
    (calculate_metrics 100).lives_saved.children = 9647 ∧
    (calculate_metrics 100).lives_saved.adults = 4580 ∧
    (calculate_metrics 100).lives_saved.total = 14227 ∧
    (calculate_metrics 100).total_cost = 3348239 ∧
    (calculate_metrics 100).cost_per_life_saved = 19069 / 14227 ∧
    pyRound ((calculate_metrics 100).cost_per_life_saved * 100) = 134 := by
  have h1 : pyRound ((9647 : ℤ) * ((100 : ℚ) / 100)) = 9647 :=
    pyRound_floor_case (by norm_num) (by norm_num)
  have h2 : pyRound ((4580 : ℤ) * ((100 : ℚ) / 100)) = 4580 :=
    pyRound_floor_case (by norm_num) (by norm_num)
  have h3 : pyRound ((14227 : ℤ) * ((100 : ℚ) / 100)) = 14227 :=
    pyRound_floor_case (by norm_num) (by norm_num)
  have hc : (calculate_metrics 100).cost_per_life_saved = 19069 / 14227 := by
    simp only [calculate_metrics, h3]
    norm_num
  refine ⟨?_, ?_, ?_, ?_, hc, ?_⟩
  · simp only [calculate_metrics, h1]
  · simp only [calculate_metrics, h2]
  · simp only [calculate_metrics, h3]
  · simp only [calculate_metrics]
    norm_num
  · rw [hc]
    exact pyRound_floor_case (by norm_num) (by norm_num)

/-- C3: for adoption_rate = 50, `calculate_metrics` returns
total_cost = 3329170 × 0.5 + 3348239 × 0.5 = 3338704.50 and
lives_saved total = 7114 (rounding applied to 7113.5). -/
theorem c3_rate_50 :
    (calculate_metrics 50).total_cost = 3329170 * (1/2) + 3348239 * (1/2) ∧
    (calculate_metrics 50).total_cost = 3338704 + 1/2 ∧
    (calculate_metrics 50).lives_saved.total = 7114 := by
  refine ⟨?_, ?_, lives_total_50⟩
  · simp only [calculate_metrics]
    norm_num
  · simp only [calculate_metrics]
    norm_num

/-- C4: for adoption rates r ≤ s within [0,100], each of the three
lives_saved values at r is at most the corresponding value at s:
lives_saved is non-decreasing in the adoption rate. -/
theorem c4_lives_saved_mono (r s : ℚ) (_h0 : 0 ≤ r) (h1 : r ≤ s) (_h2 : s ≤ 100) :
    (calculate_metrics r).lives_saved.children ≤ (calculate_metrics s).lives_saved.children ∧
    (calculate_metrics r).lives_saved.adults ≤ (calculate_metrics s).lives_saved.adults ∧
    (calculate_metrics r).lives_saved.total ≤ (calculate_metrics s).lives_saved.total := by
  refine ⟨?_, ?_, ?_⟩ <;>
    · simp only [calculate_metrics]
      exact pyRound_mono (by push_cast; linarith)

theorem c4_witness :
    (calculate_metrics 0).lives_saved.children ≤ (calculate_metrics 100).lives_saved.children ∧
    (calculate_metrics 0).lives_saved.adults ≤ (calculate_metrics 100).lives_saved.adults ∧
    (calculate_metrics 0).lives_saved.total ≤ (calculate_metrics 100).lives_saved.total :=
  c4_lives_saved_mono 0 100 (by norm_num) (by norm_num) (by norm_num)

/-- C5: for every adoption_rate in [0,100], the cost_difference value
returned by `calculate_metrics` equals 19069, independently of the rate. -/
theorem c5_cost_difference_constant (r : ℚ) (_h0 : 0 ≤ r) (_h1 : r ≤ 100) :
    (calculate_metrics r).cost_difference = 19069 := by
  simp only [calculate_metrics]
  norm_num

theorem c5_witness : (calculate_metrics 50).cost_difference = 19069 :=
  c5_cost_difference_constant 50 (by norm_num) (by norm_num)

/-- C6, counterexample: at the nonzero rational rate 3/1000 ∈ [0,100] the
guard takes its zero branch (lives_saved total is 0, cost_per_life_saved 0),
so the zero branch is not taken exactly when adoption_rate = 0. -/
theorem c6_zero_branch_at_nonzero_rate :
    (0 : ℚ) ≤ 3/1000 ∧ (3/1000 : ℚ) ≤ 100 ∧ (3/1000 : ℚ) ≠ 0 ∧
    (calculate_metrics (3/1000)).lives_saved.total ≤ 0 ∧
    (calculate_metrics (3/1000)).cost_per_life_saved = 0 := by
  have h : pyRound ((14227 : ℤ) * ((3/1000 : ℚ) / 100)) = 0 :=
    pyRound_floor_case (by norm_num) (by norm_num)
  refine ⟨by norm_num, by norm_num, by norm_num, ?_, ?_⟩
  · simp only [calculate_metrics, h]
    omega
  · simp only [calculate_metrics, h]
    norm_num

/-- C6, amended: for every rational adoption_rate in [0,100],
`calculate_metrics` returns normally and never divides by zero: the guard
takes its zero branch, returning cost_per_life_saved = 0, exactly when
lives_saved total ≤ 0, which happens exactly when adoption_rate ≤ 50/14227
(so not only at adoption_rate = 0); whenever the division is performed the
divisor lives_saved total is positive. -/
theorem c6_guard_behavior (r : ℚ) (h0 : 0 ≤ r) (_h1 : r ≤ 100) :
    ((calculate_metrics r).lives_saved.total ≤ 0 ↔ r ≤ 50/14227) ∧
    ((calculate_metrics r).lives_saved.total ≤ 0 →
      (calculate_metrics r).cost_per_life_saved = 0) ∧
    (0 < (calculate_metrics r).lives_saved.total →
      (calculate_metrics r).cost_per_life_saved =
        19069 * (r / 100) / ((calculate_metrics r).lives_saved.total : ℚ)) := by
  simp only [calculate_metrics]
  refine ⟨⟨?_, ?_⟩, ?_, ?_⟩
  · intro h
    by_contra hc
    push_neg at hc
    have hgt : (1 : ℚ)/2 < ((14227 : ℤ) : ℚ) * (r / 100) := by push_cast; linarith
    have hb := le_pyRound (((14227 : ℤ) : ℚ) * (r / 100))
    have hq : (0 : ℚ) < (pyRound (((14227 : ℤ) : ℚ) * (r / 100)) : ℚ) := by linarith
    have hz : 0 < pyRound (((14227 : ℤ) : ℚ) * (r / 100)) := by exact_mod_cast hq
    omega
  · intro h
    have hle : ((14227 : ℤ) : ℚ) * (r / 100) ≤ 1/2 := by push_cast; linarith
    have hge : (0 : ℚ) ≤ ((14227 : ℤ) : ℚ) * (r / 100) := by push_cast; linarith
    rcases eq_or_lt_of_le hle with he | hl
    · have hz : pyRound (((14227 : ℤ) : ℚ) * (r / 100)) = 0 :=
        pyRound_tie_even (by push_cast at he ⊢; linarith) (by norm_num)
      omega
    · have hz : pyRound (((14227 : ℤ) : ℚ) * (r / 100)) = 0 :=
        pyRound_floor_case (by push_cast; linarith) (by push_cast at hl ⊢; linarith)
      omega
  · intro h
    rw [if_neg (by omega)]
  · intro h
    rw [if_pos h]
    push_cast
    norm_num

theorem c6_witness :
    ((calculate_metrics 50).lives_saved.total ≤ 0 ↔ (50 : ℚ) ≤ 50/14227) ∧
    ((calculate_metrics 50).lives_saved.total ≤ 0 →
      (calculate_metrics 50).cost_per_life_saved = 0) ∧
    (0 < (calculate_metrics 50).lives_saved.total →
      (calculate_metrics 50).cost_per_life_saved =
        19069 * ((50 : ℚ) / 100) / ((calculate_metrics 50).lives_saved.total : ℚ)) :=
  c6_guard_behavior 50 (by norm_num) (by norm_num)

/-- C7: for every adoption_rate in (0,100] with lives_saved total > 0,
cost_per_life_saved equals the incremental spend cost_difference × rate/100
divided by the incremental lives saved (the lives_saved total), and every
cost output equals its constant × (rate/100) or constant × (1 − rate/100),
with total_cost their sum. -/
theorem c7_cost_structure (r : ℚ) (_h0 : 0 < r) (_h1 : r ≤ 100)
    (h2 : 0 < (calculate_metrics r).lives_saved.total) :
    (calculate_metrics r).cost_per_life_saved =
      19069 * (r / 100) / ((calculate_metrics r).lives_saved.total : ℚ) ∧
    (calculate_metrics r).costs.huffstatin.total = 3329170 * (1 - r / 100) ∧
    (calculate_metrics r).costs.huffstatin.children = 2407888 * (1 - r / 100) ∧
    (calculate_metrics r).costs.huffstatin.adults = 921283 * (1 - r / 100) ∧
    (calculate_metrics r).costs.clairadol.total = 3348239 * (r / 100) ∧
    (calculate_metrics r).costs.clairadol.children = 2182241 * (r / 100) ∧
    (calculate_metrics r).costs.clairadol.adults = 1165998 * (r / 100) ∧
    (calculate_metrics r).total_cost = 3329170 * (1 - r / 100) + 3348239 * (r / 100) := by
  simp only [calculate_metrics] at h2 ⊢
  rw [if_pos h2]
  refine ⟨?_, ?_, ?_, ?_, ?_, ?_, ?_, ?_⟩ <;> push_cast <;> norm_num

theorem c7_witness :
    (calculate_metrics 50).cost_per_life_saved =
      19069 * ((50 : ℚ) / 100) / ((calculate_metrics 50).lives_saved.total : ℚ) ∧
    (calculate_metrics 50).costs.huffstatin.total = 3329170 * (1 - (50 : ℚ) / 100) ∧
    (calculate_metrics 50).costs.huffstatin.children = 2407888 * (1 - (50 : ℚ) / 100) ∧
    (calculate_metrics 50).costs.huffstatin.adults = 921283 * (1 - (50 : ℚ) / 100) ∧
    (calculate_metrics 50).costs.clairadol.total = 3348239 * ((50 : ℚ) / 100) ∧
    (calculate_metrics 50).costs.clairadol.children = 2182241 * ((50 : ℚ) / 100) ∧
    (calculate_metrics 50).costs.clairadol.adults = 1165998 * ((50 : ℚ) / 100) ∧
    (calculate_metrics 50).total_cost =
      3329170 * (1 - (50 : ℚ) / 100) + 3348239 * ((50 : ℚ) / 100) :=
  c7_cost_structure 50 (by norm_num) (by norm_num) (by rw [lives_total_50]; norm_num)

/-- C8: `calculate_metrics` is a deterministic pure function of the
adoption rate: two calls with equal adoption rates return equal values in
all components, and no call affects any other. -/
theorem c8_deterministic (r s : ℚ) (h : r = s) :
    calculate_metrics r = calculate_metrics s := by
  rw [h]

theorem c8_witness : calculate_metrics 50 = calculate_metrics 50 :=
  c8_deterministic 50 50 rfl

/-- C9: because the three lives_saved values are rounded independently,
for every adoption_rate in [0,100] the sum children + adults differs from
total by at most 1, and the bound is attained: at adoption_rate = 3 the
sum does not equal the total. -/
theorem c9_rounding_discrepancy :
    (∀ r : ℚ, 0 ≤ r → r ≤ 100 →
      |(calculate_metrics r).lives_saved.children + (calculate_metrics r).lives_saved.adults -
        (calculate_metrics r).lives_saved.total| ≤ 1) ∧
    (calculate_metrics 3).lives_saved.children + (calculate_metrics 3).lives_saved.adults ≠
      (calculate_metrics 3).lives_saved.total := by
  constructor
  · intro r _h0 _h1
    simp only [calculate_metrics]
    have harg : ((9647 : ℤ) : ℚ) * (r / 100) + ((4580 : ℤ) : ℚ) * (r / 100) =
        ((14227 : ℤ) : ℚ) * (r / 100) := by push_cast; ring
    have key := pyRound_add_err (((9647 : ℤ) : ℚ) * (r / 100)) (((4580 : ℤ) : ℚ) * (r / 100))
    rw [harg] at key
    exact key
  · have h1 : pyRound ((9647 : ℤ) * ((3 : ℚ) / 100)) = 289 :=
      pyRound_floor_case (by norm_num) (by norm_num)
    have h2 : pyRound ((4580 : ℤ) * ((3 : ℚ) / 100)) = 137 :=
      pyRound_floor_case (by norm_num) (by norm_num)
    have h3 : pyRound ((14227 : ℤ) * ((3 : ℚ) / 100)) = 426 + 1 :=
      pyRound_up_case (by norm_num) (by norm_num)
    simp only [calculate_metrics, h1, h2, h3]
    norm_num

theorem c9_witness :
    |(calculate_metrics 3).lives_saved.children + (calculate_metrics 3).lives_saved.adults -
      (calculate_metrics 3).lives_saved.total| ≤ 1 ∧
    (calculate_metrics 3).lives_saved.children + (calculate_metrics 3).lives_saved.adults ≠
      (calculate_metrics 3).lives_saved.total :=
  ⟨c9_rounding_discrepancy.1 3 (by norm_num) (by norm_num), c9_rounding_discrepancy.2⟩

/-- C10: for every adoption_rate in [0,100], the huffstatin children cost
plus the huffstatin adults cost exceeds the huffstatin total cost by
exactly 1 − adoption_rate/100 (the age-group constants sum to 3329171,
one more than the total constant 3329170), and the two sides are equal
exactly at adoption_rate = 100. -/
theorem c10_huffstatin_breakdown_gap (r : ℚ) (_h0 : 0 ≤ r) (_h1 : r ≤ 100) :
    (calculate_metrics r).costs.huffstatin.children +
      (calculate_metrics r).costs.huffstatin.adults -
      (calculate_metrics r).costs.huffstatin.total = 1 - r / 100 ∧
    ((calculate_metrics r).costs.huffstatin.children +
      (calculate_metrics r).costs.huffstatin.adults =
      (calculate_metrics r).costs.huffstatin.total ↔ r = 100) := by
  simp only [calculate_metrics]
  push_cast
  constructor
  · ring
  · constructor
    · intro h
      linarith
    · intro h
      rw [h]
      norm_num

theorem c10_witness :
    (calculate_metrics 0).costs.huffstatin.children +
      (calculate_metrics 0).costs.huffstatin.adults -
      (calculate_metrics 0).costs.huffstatin.total = 1 - (0 : ℚ) / 100 ∧
    ((calculate_metrics 0).costs.huffstatin.children +
      (calculate_metrics 0).costs.huffstatin.adults =
      (calculate_metrics 0).costs.huffstatin.total ↔ (0 : ℚ) = 100) :=
  c10_huffstatin_breakdown_gap 0 (by norm_num) (by norm_num)

end Zachistan
